import Mathlib

/-
Verification of the orkis agent-runtime steering engine.

Shallow embedding of the per-agent lifecycle / message-queue engine of
`agent-manager.ts` (class AgentManager): the queue operations
(queueMessage, removeQueuedMessage, clearQueue, reorderQueueByPriority,
getQueueState), the steering operations (sendSteerMessage, setSteerMode,
interruptAgent, handleUserInput), the drain loop (processQueue,
waitForAgentIdle), the messaging path (sendMessage and the per-engine
dispatch functions), and the lifecycle operation stopAgent, together with
the WebSocket server's handler for `remove_queued_message` (server.ts).

Modelling conventions:
  * uuidv4() and `new Date().toISOString()` are modelled by a counter
    `nextId` threaded through the state; ids and timestamps are Nat.
  * `this.emit(...)` is modelled by appending an `Event` to a trace.
  * The call to the external engine (the claude-agent-sdk `query` stream /
    the codex thread `run`) is modelled by an `EngineOutcome` oracle; the
    moment of the call is recorded in the trace as `Event.engineDispatch`
    together with the agent status observed at that moment.
  * A thrown JS exception is modelled by a `Bool` "threw" flag returned
    alongside the state; a caller that does not catch it propagates it and
    executes none of its remaining statements.
  * `waitForAgentIdle` (a bounded poll of `agent.status`) is modelled by a
    Bool oracle saying whether the agent returns to idle within the
    5-minute bound; if it does, the background stream handler's
    idle transition (with its status event) is applied.
-/

namespace Orkis

/-- `AgentStatus` from types.ts:
`"idle" | "running" | "stopped" | "error" | "waiting_for_input"`. -/
inductive AgentStatus
  | idle
  | running
  | stopped
  | error
  | waitingForInput
  deriving DecidableEq, Repr

/-- `SteerMode` from the type contracts: `"immediate" | "queue"`. -/
inductive SteerMode
  | immediate
  | queue
  deriving DecidableEq, Repr

/-- Queued-message priority: `"normal" | "high"` (default `"normal"`). -/
inductive Priority
  | normal
  | high
  deriving DecidableEq, Repr

/-- `QueuedMessage`: `{ id, content, timestamp, priority }`. -/
structure QueuedMessage where
  id : Nat
  content : String
  timestamp : Nat
  priority : Priority
  deriving DecidableEq, Repr

/-- `AgentMessage.message_type`: `"user" | "assistant" | "system" | "tool"`. -/
inductive MessageType
  | user
  | assistant
  | system
  | tool
  deriving DecidableEq, Repr

/-- `AgentMessage` (the fields the steering engine reads/writes). -/
structure AgentMessage where
  id : Nat
  message_type : MessageType
  content : String
  timestamp : Nat
  deriving DecidableEq, Repr

/-- `MessageQueueState`: the read-only projection stored on the agent
(`{ messages, steerMode, processingQueue, selectedIndex }`). -/
structure MessageQueueState where
  messages : List QueuedMessage
  steerMode : SteerMode
  processingQueue : Bool
  selectedIndex : Int
  deriving DecidableEq, Repr

/-- The two supported engine kinds: `"claude-code" | "codex"`. -/
inductive AgentType
  | claudeCode
  | codex
  deriving DecidableEq, Repr

/-- The fields of `Agent` that the steering engine touches: status, the
append-only message log, and the public queue-state projection. -/
structure Agent where
  agent_type : AgentType
  status : AgentStatus
  messages : List AgentMessage
  queue_state : Option MessageQueueState
  deriving DecidableEq, Repr

/-- The fields of `RunningAgent` (the manager's private per-agent record)
that the steering engine touches. -/
structure RunningAgent where
  agent : Agent
  messageQueue : List QueuedMessage
  steerMode : SteerMode
  processingQueue : Bool
  interruptRequested : Bool
  deriving DecidableEq, Repr

/-- The events the manager emits, plus `engineDispatch`, which records a
call to the external engine together with the agent status observed at
the moment of the call (just before the engine-send function sets the
status to running). -/
inductive Event
  | agentStatus (s : AgentStatus)
  | agentMessage (m : AgentMessage)
  | queueMessageAdded (m : QueuedMessage)
  | queueMessageRemoved (id : Nat)
  | queueCleared
  | processingStarted
  | processingCompleted
  | steerModeChanged (m : SteerMode)
  | steerMessageInjected (content : String)
  | agentInterrupted
  | engineDispatch (prompt : String) (statusAtDispatch : AgentStatus)
  deriving DecidableEq, Repr

/-- Manager state restricted to one agent id: `this.agents.get(agentId)`
(`none` models "agent not found"), the uuid/timestamp counter, and the
trace of emitted events. -/
structure MState where
  ra : Option RunningAgent
  nextId : Nat
  events : List Event
  deriving DecidableEq, Repr

/-- `this.emit(e)`. -/
def emitEv (s : MState) (e : Event) : MState :=
  { s with events := s.events ++ [e] }

/-- Apply a function to the running agent, if present. -/
def mapRA (s : MState) (f : RunningAgent → RunningAgent) : MState :=
  match s.ra with
  | none => s
  | some ra => { s with ra := some (f ra) }

/-- `agent.status = st` followed by emitting the status event
(every status write in the source is immediately followed by
`this.emit("agent:status", ...)`). -/
def setStatus (s : MState) (st : AgentStatus) : MState :=
  match s.ra with
  | none => s
  | some ra =>
    emitEv
      { s with ra := some { ra with agent := { ra.agent with status := st } } }
      (Event.agentStatus st)

/-- `if (agent.queue_state) { agent.queue_state.messages = [...runningAgent.messageQueue]; }` -/
def updateQueueStateMessages (a : Agent) (mq : List QueuedMessage) : Agent :=
  match a.queue_state with
  | some qs => { a with queue_state := some { qs with messages := mq } }
  | none => a

/-- Push a message onto `agent.messages` and emit `agent:message`
(ids and timestamps drawn from the counter). -/
def pushAgentMessage (s : MState) (mt : MessageType) (content : String) : MState :=
  match s.ra with
  | none => s
  | some ra =>
    let msg : AgentMessage :=
      { id := s.nextId, message_type := mt, content := content, timestamp := s.nextId }
    { s with
      ra := some { ra with agent := { ra.agent with messages := ra.agent.messages ++ [msg] } },
      nextId := s.nextId + 1,
      events := s.events ++ [Event.agentMessage msg] }

/-- Set `runningAgent.processingQueue` and mirror it into
`agent.queue_state.processingQueue` when the projection exists. -/
def setProcessingQueue (s : MState) (b : Bool) : MState :=
  match s.ra with
  | none => s
  | some ra =>
    let agent1 :=
      match ra.agent.queue_state with
      | some qs => { ra.agent with queue_state := some { qs with processingQueue := b } }
      | none => ra.agent
    { s with ra := some { ra with agent := agent1, processingQueue := b } }

/-- `runningAgent.interruptRequested = b`. -/
def setInterruptRequested (s : MState) (b : Bool) : MState :=
  mapRA s (fun ra => { ra with interruptRequested := b })

/-- The source's message preview:
`content.slice(0, 50) + (content.length > 50 ? "..." : "")`. -/
def contentPreview (content : String) : String :=
  content.take 50 ++ (if content.length > 50 then "..." else "")

/-- `AgentManager.queueMessage(agentId, content, priority = "normal")`
(agent-manager.ts): push the new entry at the tail of the queue, mirror
the queue into `agent.queue_state.messages`, emit `queue:message_added`,
append a `[Queue] Message queued` system message to the log, and return
the queued message (`null` when the agent id is unknown). -/
def queueMessage (s : MState) (content : String) (priority : Priority) :
    MState × Option QueuedMessage :=
  match s.ra with
  | none => (s, none)
  | some ra =>
    let qm : QueuedMessage :=
      { id := s.nextId, content := content, timestamp := s.nextId, priority := priority }
    let mq := ra.messageQueue ++ [qm]
    let agent1 := updateQueueStateMessages ra.agent mq
    let s1 : MState :=
      { s with
        ra := some { ra with agent := agent1, messageQueue := mq },
        nextId := s.nextId + 1,
        events := s.events ++ [Event.queueMessageAdded qm] }
    let s2 := pushAgentMessage s1 MessageType.system
      ("[Queue] Message queued: \"" ++ contentPreview content ++ "\"")
    (s2, some qm)

/-- `AgentManager.reorderQueueByPriority(runningAgent)`:
`messageQueue = [...filter(priority === "high"), ...filter(priority !== "high")]`,
then mirror into `agent.queue_state.messages`. -/
def reorderQueueByPriority (ra : RunningAgent) : RunningAgent :=
  let highPriority := ra.messageQueue.filter (fun m => m.priority = Priority.high)
  let normalPriority := ra.messageQueue.filter (fun m => ¬(m.priority = Priority.high))
  let mq := highPriority ++ normalPriority
  { ra with agent := updateQueueStateMessages ra.agent mq, messageQueue := mq }

/-- `AgentManager.removeQueuedMessage(agentId, messageId)`: filter the id
out of the queue; only when the length shrank, mirror the queue and emit
`queue:message_removed` and return true; otherwise return false. -/
def removeQueuedMessage (s : MState) (messageId : Nat) : MState × Bool :=
  match s.ra with
  | none => (s, false)
  | some ra =>
    let initialLength := ra.messageQueue.length
    let mq := ra.messageQueue.filter (fun m => ¬(m.id = messageId))
    if mq.length < initialLength then
      let agent1 := updateQueueStateMessages ra.agent mq
      (emitEv { s with ra := some { ra with agent := agent1, messageQueue := mq } }
        (Event.queueMessageRemoved messageId), true)
    else
      ({ s with ra := some { ra with messageQueue := mq } }, false)

/-- `AgentManager.clearQueue(agentId)`: drop all entries, reset the
projection (`messages = []`, `selectedIndex = -1`), emit `queue:cleared`,
append a system message. -/
def clearQueue (s : MState) : MState × Bool :=
  match s.ra with
  | none => (s, false)
  | some ra =>
    let agent1 :=
      match ra.agent.queue_state with
      | some qs =>
        { ra.agent with queue_state := some { qs with messages := [], selectedIndex := -1 } }
      | none => ra.agent
    let s1 : MState := { s with ra := some { ra with agent := agent1, messageQueue := [] } }
    let s2 := emitEv s1 Event.queueCleared
    let s3 := pushAgentMessage s2 MessageType.system "[Queue] All queued messages cleared"
    (s3, true)

/-- Outcome of one delegated engine call, the model's oracle for the
external engine:
  * `success resp` — the turn completes; the stream's final result is
    appended as an assistant message and the status handler fires idle;
  * `engineError` — the engine throws a non-abort error;
  * `abortSwallowed` — (claude-code path) the call throws `AbortError`
    before any result/Stop event; the catch swallows it. -/
inductive EngineOutcome
  | success (resp : String)
  | engineError
  | abortSwallowed
  deriving DecidableEq, Repr

/-- `AgentManager.sendClaudeCodeMessage(runningAgent, message)`: set
status running, dispatch to the sdk `query` stream; on a `result`
message set status idle; on a non-abort error set status error and
rethrow; an `AbortError` is swallowed (the status is left as it was,
i.e. running when the abort preceded any result event). -/
def sendClaudeCodeMessage (s : MState) (message : String) (outcome : EngineOutcome) :
    MState × Bool :=
  match s.ra with
  | none => (s, false)
  | some ra =>
    let s0 := emitEv s (Event.engineDispatch message ra.agent.status)
    let s1 := setStatus s0 AgentStatus.running
    match outcome with
    | EngineOutcome.success resp =>
      let s2 := pushAgentMessage s1 MessageType.assistant resp
      (setStatus s2 AgentStatus.idle, false)
    | EngineOutcome.engineError => (setStatus s1 AgentStatus.error, true)
    | EngineOutcome.abortSwallowed => (s1, false)

/-- `AgentManager.sendCodexMessage(runningAgent, message)`: set status
running, run the codex thread; on completion append the final response
and set status idle; any thrown error (the catch has no AbortError
special case) sets status error and rethrows. -/
def sendCodexMessage (s : MState) (message : String) (outcome : EngineOutcome) :
    MState × Bool :=
  match s.ra with
  | none => (s, false)
  | some ra =>
    let s0 := emitEv s (Event.engineDispatch message ra.agent.status)
    let s1 := setStatus s0 AgentStatus.running
    match outcome with
    | EngineOutcome.success resp =>
      let s2 := pushAgentMessage s1 MessageType.assistant resp
      (setStatus s2 AgentStatus.idle, false)
    | EngineOutcome.engineError => (setStatus s1 AgentStatus.error, true)
    | EngineOutcome.abortSwallowed => (setStatus s1 AgentStatus.error, true)

/-- `AgentManager.sendMessage(agentId, message)`: no status precondition;
append the user message to the log, then dispatch to the engine chosen
by `agent.agent_type`. -/
def sendMessage (s : MState) (message : String) (outcome : EngineOutcome) :
    MState × Bool :=
  match s.ra with
  | none => (s, false)
  | some ra =>
    let s1 := pushAgentMessage s MessageType.user message
    match ra.agent.agent_type with
    | AgentType.claudeCode => sendClaudeCodeMessage s1 message outcome
    | AgentType.codex => sendCodexMessage s1 message outcome

/-- `AgentManager.sendSteerMessage(agentId, message)`: if the agent is
idle, just `sendMessage`; otherwise, in immediate steer mode, log a
`[Steer]` system message, emit `steer:message_injected`, set
`interruptRequested`, enqueue the message with high priority and reorder
the queue; in queue steer mode, just enqueue with default (normal)
priority. -/
def sendSteerMessage (s : MState) (message : String) (outcome : EngineOutcome) :
    MState × Bool :=
  match s.ra with
  | none => (s, false)
  | some ra =>
    if ra.agent.status = AgentStatus.idle then
      ((sendMessage s message outcome).1, true)
    else if ra.steerMode = SteerMode.immediate then
      let s1 := pushAgentMessage s MessageType.system
        ("[Steer] Injecting message mid-turn: \"" ++ contentPreview message ++ "\"")
      let s2 := emitEv s1 (Event.steerMessageInjected message)
      let s3 := setInterruptRequested s2 true
      let r := queueMessage s3 message Priority.high
      let s5 :=
        match r.2 with
        | some _ => mapRA r.1 reorderQueueByPriority
        | none => r.1
      (s5, true)
    else
      let r := queueMessage s message Priority.normal
      (r.1, r.2.isSome)

/-- `AgentManager.waitForAgentIdle(runningAgent)`: poll `agent.status`
every 100ms until it is no longer "running", for at most 5 minutes.
`becomesIdleWithinTimeout` is the oracle for whether the background
stream handler fires the idle transition within the bound; if it does
not, the wait simply elapses and the status is left running. -/
def waitForAgentIdle (s : MState) (becomesIdleWithinTimeout : Bool) : MState :=
  match s.ra with
  | none => s
  | some ra =>
    if ra.agent.status = AgentStatus.running then
      if becomesIdleWithinTimeout then setStatus s AgentStatus.idle else s
    else s

/-- The body of `processQueue`'s while-loop
(`while (messageQueue.length > 0 && !interruptRequested)`), one oracle
entry per iteration (engine outcome, wait-for-idle outcome). The fuel is
set by `processQueue` to the queue length at entry: each iteration
shifts one entry and no statement in the loop body enqueues, so the
loop performs at most that many iterations and the fuel-0 branch is
never the exit taken on a real run. A thrown error from `sendMessage`
propagates: the loop is abandoned at that point. -/
def drainLoop (oracle : Nat → EngineOutcome × Bool) :
    Nat → Nat → MState → MState × Bool
  | 0, _, s => (s, false)
  | fuel + 1, k, s =>
    match s.ra with
    | none => (s, false)
    | some ra =>
      match ra.messageQueue, ra.interruptRequested with
      | [], _ => (s, false)
      | _ :: _, true => (s, false)
      | m :: rest, false =>
        let agent1 := updateQueueStateMessages ra.agent rest
        let s1 : MState :=
          { s with
            ra := some { ra with agent := agent1, messageQueue := rest },
            events := s.events ++ [Event.queueMessageRemoved m.id] }
        let r := sendMessage s1 m.content (oracle k).1
        if r.2 then (r.1, true)
        else
          let s3 := waitForAgentIdle r.1 (oracle k).2
          drainLoop oracle fuel (k + 1) s3

/-- `AgentManager.processQueue(agentId)`: refuse when already processing
or the agent status is "running" or the queue is empty; otherwise set
the processing flag (mirrored into the projection), emit
`queue:processing_started`, run the drain loop, and — unless an error
propagated out of an iteration — reset the flag and emit
`queue:processing_completed`. -/
def processQueue (s : MState) (oracle : Nat → EngineOutcome × Bool) : MState × Bool :=
  match s.ra with
  | none => (s, false)
  | some ra =>
    if ra.processingQueue = true ∨ ra.agent.status = AgentStatus.running then (s, false)
    else if ra.messageQueue.length = 0 then (s, false)
    else
      let s1 := setProcessingQueue s true
      let s2 := emitEv s1 Event.processingStarted
      let r := drainLoop oracle ra.messageQueue.length 0 s2
      if r.2 then (r.1, true)
      else
        let s4 := setProcessingQueue r.1 false
        (emitEv s4 Event.processingCompleted, false)

/-- `AgentManager.getQueueState(agentId)`: snapshot
`{ messages: [...messageQueue], steerMode, processingQueue, selectedIndex }`
(`null` when the agent id is unknown). -/
def getQueueState (s : MState) : Option MessageQueueState :=
  match s.ra with
  | none => none
  | some ra =>
    some
      { messages := ra.messageQueue,
        steerMode := ra.steerMode,
        processingQueue := ra.processingQueue,
        selectedIndex :=
          match ra.agent.queue_state with
          | some qs => qs.selectedIndex
          | none => -1 }

/-- `AgentManager.setSteerMode(agentId, mode)`: update the mode, mirror
it into the projection, emit `steer:mode_changed`, log a system message. -/
def setSteerMode (s : MState) (mode : SteerMode) : MState × Bool :=
  match s.ra with
  | none => (s, false)
  | some ra =>
    let agent1 :=
      match ra.agent.queue_state with
      | some qs => { ra.agent with queue_state := some { qs with steerMode := mode } }
      | none => ra.agent
    let s1 : MState := { s with ra := some { ra with agent := agent1, steerMode := mode } }
    let s2 := emitEv s1 (Event.steerModeChanged mode)
    let s3 := pushAgentMessage s2 MessageType.system
      (if mode = SteerMode.immediate then
        "[Steer] Mode changed to: Send immediately (mid-turn steering)"
      else "[Steer] Mode changed to: Queue messages")
    (s3, true)

/-- `AgentManager.interruptAgent(agentId)`: return false unless the
status is "running"; otherwise set `interruptRequested`, abort the
current operation (external effect), install a fresh AbortController,
emit `agent:interrupted`, log a system message. The `setTimeout` that
clears the flag 100ms later is modelled separately by
`interruptTimerFire`. -/
def interruptAgent (s : MState) : MState × Bool :=
  match s.ra with
  | none => (s, false)
  | some ra =>
    if ra.agent.status = AgentStatus.running then
      let s1 := setInterruptRequested s true
      let s2 := emitEv s1 Event.agentInterrupted
      let s3 := pushAgentMessage s2 MessageType.system "[Interrupt] Agent operation interrupted"
      (s3, true)
    else (s, false)

/-- The deferred `setTimeout(() => interruptRequested = false, 100)`
installed by `interruptAgent`. -/
def interruptTimerFire (s : MState) : MState :=
  setInterruptRequested s false

/-- `AgentManager.stopAgent(agentId)`: abort the in-flight operation,
kill the child process and close the plan watcher (external effects),
then set status "stopped". -/
def stopAgent (s : MState) : MState :=
  match s.ra with
  | none => s
  | some _ => setStatus s AgentStatus.stopped

/-- `AgentManager.handleUserInput(agentId, message)`: if idle, send
directly, and when queued messages exist afterwards, wait for idle and
process the queue; if busy, steer (immediate mode) or enqueue with
default priority (queue mode). -/
def handleUserInput (s : MState) (message : String) (outcome : EngineOutcome)
    (becomesIdle : Bool) (oracle : Nat → EngineOutcome × Bool) : MState :=
  match s.ra with
  | none => s
  | some ra =>
    if ra.agent.status = AgentStatus.idle then
      let s1 := (sendMessage s message outcome).1
      match s1.ra with
      | none => s1
      | some ra1 =>
        if 0 < ra1.messageQueue.length then
          let s2 := waitForAgentIdle s1 becomesIdle
          (processQueue s2 oracle).1
        else s1
    else if ra.steerMode = SteerMode.immediate then
      (sendSteerMessage s message outcome).1
    else
      (queueMessage s message Priority.normal).1

/-- The server's reply envelope (server.ts): `{type:"success"}` or
`{type:"error", message}`. -/
inductive ServerResponse
  | success
  | error (message : String)
  deriving DecidableEq, Repr

/-- server.ts, `case "remove_queued_message"`: forward to the manager
and reply success when it returned true, otherwise an error reply. -/
def handleRemoveQueuedMessage (s : MState) (messageId : Nat) : MState × ServerResponse :=
  let r := removeQueuedMessage s messageId
  if r.2 then (r.1, ServerResponse.success)
  else (r.1, ServerResponse.error "Failed to remove queued message")

/-- The manager state for an agent right after `startAgent` succeeds:
status idle, empty log and queue, `queue_state` initialised to
`{ messages: [], steerMode: "immediate", processingQueue: false, selectedIndex: -1 }`,
steer mode immediate, no processing, no interrupt requested. (The
startup turn's log entries are elided; they do not touch the queue.) -/
def startedState (t : AgentType) : MState :=
  { ra := some
      { agent :=
          { agent_type := t,
            status := AgentStatus.idle,
            messages := [],
            queue_state := some
              { messages := [],
                steerMode := SteerMode.immediate,
                processingQueue := false,
                selectedIndex := -1 } },
        messageQueue := [],
        steerMode := SteerMode.immediate,
        processingQueue := false,
        interruptRequested := false },
    nextId := 0,
    events := [] }

/-- The stored queue of a state (empty when the agent is unknown). -/
def queueOf (s : MState) : List QueuedMessage :=
  match s.ra with
  | none => []
  | some ra => ra.messageQueue

/-- The agent status of a state. -/
def statusOf (s : MState) : Option AgentStatus :=
  s.ra.map (fun ra => ra.agent.status)

/-- The interrupt flag of a state. -/
def interruptOf (s : MState) : Option Bool :=
  s.ra.map (fun ra => ra.interruptRequested)

/-- The message log of a state. -/
def logOf (s : MState) : List AgentMessage :=
  match s.ra with
  | none => []
  | some ra => ra.agent.messages

/-- The priority-major part of the spec's queue ordering: no
normal-priority entry ever strictly precedes a high-priority entry
(equivalently, every high-priority entry precedes every normal-priority
entry). FIFO within each band is expressed separately by preservation of
the `filter` subsequences. -/
def priorityMajorFifoMinor (l : List QueuedMessage) : Prop :=
  List.Pairwise
    (fun a b => ¬(a.priority = Priority.normal ∧ b.priority = Priority.high)) l

instance (l : List QueuedMessage) : Decidable (priorityMajorFifoMinor l) := by
  unfold priorityMajorFifoMinor
  infer_instance

/-- The UI-mirror invariant: whenever the agent exists and carries a
`queue_state` projection, `agent.queue_state.messages` equals the
manager's internal `messageQueue`. -/
def queueMirroredB (s : MState) : Bool :=
  match s.ra with
  | none => true
  | some ra =>
    match ra.agent.queue_state with
    | some qs => qs.messages = ra.messageQueue
    | none => true

/-- Fresh codex agent after enqueueing "a" (normal) then "b" (high) via
`queueMessage` — the input for the C1 counterexample. -/
def c1State : MState :=
  (queueMessage (queueMessage (startedState AgentType.codex) "a" Priority.normal).1
    "b" Priority.high).1

/-- Fresh claude-code agent, steer mode set to "queue", then a turn that
is aborted mid-stream (AbortError swallowed), leaving status "running":
a busy agent in queue steer mode — the input for the C2 counterexample. -/
def c2Before : MState :=
  (sendMessage ((setSteerMode (startedState AgentType.claudeCode) SteerMode.queue).1)
    "t" EngineOutcome.abortSwallowed).1

/-- Fresh claude-code agent with "m1" and "m2" queued — the input for
the C3 evaluation. -/
def c3Start : MState :=
  (queueMessage (queueMessage (startedState AgentType.claudeCode) "m1" Priority.normal).1
    "m2" Priority.normal).1

/-- Engine oracle for the C3 evaluation: every dispatched turn is
aborted mid-stream (status left "running") and the agent does not
return to idle within `waitForAgentIdle`'s 5-minute bound. -/
def c3Oracle : Nat → EngineOutcome × Bool :=
  fun _ => (EngineOutcome.abortSwallowed, false)

/-- Fresh codex agent whose first turn raised an engine error, leaving
status "error" (steer mode still the default "immediate") — the input
for the C4 counterexample. -/
def c4Before : MState :=
  (sendMessage (startedState AgentType.codex) "boom" EngineOutcome.engineError).1

/-- Fresh codex agent with "a" and "b" queued — the input for the C5
counterexample. -/
def c5Start : MState :=
  (queueMessage (queueMessage (startedState AgentType.codex) "a" Priority.normal).1
    "b" Priority.normal).1

/-- Engine oracle for the C5 counterexample: every dispatch raises an
engine error. -/
def c5Oracle : Nat → EngineOutcome × Bool :=
  fun _ => (EngineOutcome.engineError, true)

/-- Fresh codex agent with one queued message (id 0) — the input for the
C6 counterexample. -/
def c6Start : MState :=
  (queueMessage (startedState AgentType.codex) "a" Priority.normal).1

/-- Fresh codex agent after `stopAgent` — the input for the C7
evaluation. -/
def c7Stopped : MState :=
  stopAgent (startedState AgentType.codex)

/-- Fresh claude-code agent whose turn was aborted mid-stream with the
AbortError swallowed: status is left "running" — the input for the C9
evaluation. -/
def c9Running : MState :=
  (sendMessage (startedState AgentType.claudeCode) "first" EngineOutcome.abortSwallowed).1

theorem filter_high_of_filter_high (l : List QueuedMessage) :
    (l.filter (fun m => m.priority = Priority.high)).filter
        (fun m => m.priority = Priority.high)
      = l.filter (fun m => m.priority = Priority.high) := by
  apply List.filter_eq_self.mpr
  intro a ha
  exact (List.mem_filter.mp ha).2

theorem filter_not_of_filter_not (l : List QueuedMessage) :
    (l.filter (fun m => ¬(m.priority = Priority.high))).filter
        (fun m => ¬(m.priority = Priority.high))
      = l.filter (fun m => ¬(m.priority = Priority.high)) := by
  apply List.filter_eq_self.mpr
  intro a ha
  exact (List.mem_filter.mp ha).2

theorem filter_high_of_filter_not (l : List QueuedMessage) :
    (l.filter (fun m => ¬(m.priority = Priority.high))).filter
        (fun m => m.priority = Priority.high) = [] := by
  rw [List.filter_eq_nil_iff]
  intro a ha
  have h2 := (List.mem_filter.mp ha).2
  simp only [decide_not, Bool.not_eq_true', decide_eq_false_iff_not] at h2
  simp only [decide_eq_true_eq]
  exact h2

theorem filter_not_of_filter_high (l : List QueuedMessage) :
    (l.filter (fun m => m.priority = Priority.high)).filter
        (fun m => ¬(m.priority = Priority.high)) = [] := by
  rw [List.filter_eq_nil_iff]
  intro a ha
  have h2 := (List.mem_filter.mp ha).2
  simp only [decide_eq_true_eq] at h2
  simp only [decide_not, Bool.not_eq_true', decide_eq_false_iff_not, not_not]
  exact h2

theorem priorityMajorFifoMinor_reordered (l : List QueuedMessage) :
    priorityMajorFifoMinor
      (l.filter (fun m => m.priority = Priority.high)
        ++ l.filter (fun m => ¬(m.priority = Priority.high))) := by
  unfold priorityMajorFifoMinor
  rw [List.pairwise_append]
  refine ⟨?_, ?_, ?_⟩
  · apply List.pairwise_of_forall_mem_list
    intro a ha b _
    have h2 := (List.mem_filter.mp ha).2
    simp only [decide_eq_true_eq] at h2
    rintro ⟨hn, _⟩
    rw [h2] at hn
    exact absurd hn (by decide)
  · apply List.pairwise_of_forall_mem_list
    intro a _ b hb
    have h2 := (List.mem_filter.mp hb).2
    simp only [decide_not, Bool.not_eq_true', decide_eq_false_iff_not] at h2
    rintro ⟨_, hh⟩
    exact h2 hh
  · intro a ha b _
    have h2 := (List.mem_filter.mp ha).2
    simp only [decide_eq_true_eq] at h2
    rintro ⟨hn, _⟩
    rw [h2] at hn
    exact absurd hn (by decide)

/-- C1, counterexample: on a fresh agent, `queueMessage("a", normal)`
followed by `queueMessage("b", high)` leaves the queue (as read through
`getQueueState`) with the normal entry first and the high entry second —
the stored queue is not priority-major ordered after this enqueue
sequence, refuting the claimed invariant. -/
theorem C1_counterexample :
    (getQueueState c1State).map MessageQueueState.messages = some (queueOf c1State)
    ∧ (queueOf c1State).map QueuedMessage.priority = [Priority.normal, Priority.high]
    ∧ ¬ priorityMajorFifoMinor (queueOf c1State) := by
  decide

/-- C2, counterexample: an existing agent whose status is "running" and
whose steer mode is "queue" — `sendSteerMessage(agent, "x")` does not
interrupt-and-inject: `interrupt_requested` stays false and the message
is enqueued with normal (not high) priority, refuting "forces
interrupt-and-inject regardless of the agent's current steer mode". -/
theorem C2_counterexample :
    statusOf c2Before = some AgentStatus.running
    ∧ interruptOf (sendSteerMessage c2Before "x" (EngineOutcome.success "r")).1 = some false
    ∧ (queueOf (sendSteerMessage c2Before "x" (EngineOutcome.success "r")).1).map
        (fun m => (m.content, m.priority)) = [("x", Priority.normal)] := by
  decide

/-- C3: evaluation of the code at the failing input. With "m1" and "m2"
queued, when the turn dispatched for "m1" is cancelled mid-stream
(status left "running") and the agent does not return to idle within
`waitForAgentIdle`'s 5-minute bound, `processQueue` dispatches "m2" to
the engine while the agent status is still "running", and the loop runs
to completion instead of aborting. -/
theorem C3_code_bug_evaluation :
    Event.engineDispatch "m2" AgentStatus.running ∈ (processQueue c3Start c3Oracle).1.events
    ∧ Event.processingCompleted ∈ (processQueue c3Start c3Oracle).1.events := by
  decide

/-- C4, counterexample: an existing agent in status "error" (not
"running") with steer mode "immediate" and `interrupt_requested` false —
`sendSteerMessage` sets `interrupt_requested` to true, refuting "no
operation of the manager sets interrupt_requested on an agent whose
status is not running". -/
theorem C4_counterexample :
    statusOf c4Before = some AgentStatus.error
    ∧ interruptOf c4Before = some false
    ∧ interruptOf (sendSteerMessage c4Before "x" (EngineOutcome.success "r")).1 = some true := by
  decide

/-- C5, counterexample: with "a" and "b" queued and the dispatch of "a"
raising an engine error, `processQueue` propagates the exception: "b"
is left in the queue (the loop does not continue),
`queue:processing_completed` is never emitted, and the agent's message
log gains no system message about the error (its only entries are the
two enqueue notices and the user message "a"), refuting the claimed
log-and-continue failure semantics. -/
theorem C5_counterexample :
    (processQueue c5Start c5Oracle).2 = true
    ∧ Event.processingCompleted ∉ (processQueue c5Start c5Oracle).1.events
    ∧ queueOf (processQueue c5Start c5Oracle).1
        = [{ id := 2, content := "b", timestamp := 2, priority := Priority.normal }]
    ∧ (logOf (processQueue c5Start c5Oracle).1).map (fun m => (m.message_type, m.content))
        = [(MessageType.system, "[Queue] Message queued: \"a\""),
           (MessageType.system, "[Queue] Message queued: \"b\""),
           (MessageType.user, "a")] := by
  set_option maxRecDepth 10000 in decide

/-- C6, counterexample: on an existing agent whose queue holds only the
message with id 0, `remove_queued_message` with the absent id 99 leaves
the state unchanged but is answered with the error reply
"Failed to remove queued message", not success, refuting "returns
success (a no-op), not an error". -/
theorem C6_counterexample :
    handleRemoveQueuedMessage c6Start 99
      = (c6Start, ServerResponse.error "Failed to remove queued message")
    ∧ (removeQueuedMessage c6Start 99).2 = false := by
  set_option maxRecDepth 10000 in decide

/-- C7: evaluation of the code at the failing input. After `stopAgent`
(status "stopped"), `sendMessage(agent, "hi")` does not fail: it throws
no error, dispatches a new engine turn (recorded with the status
"stopped" observed at dispatch), sets the status back to "running", and
the turn ends with the agent "idle" — the stopped agent is silently
restarted. -/
theorem C7_code_bug_evaluation :
    statusOf c7Stopped = some AgentStatus.stopped
    ∧ (sendMessage c7Stopped "hi" (EngineOutcome.success "ok")).2 = false
    ∧ statusOf (sendMessage c7Stopped "hi" (EngineOutcome.success "ok")).1
        = some AgentStatus.idle
    ∧ Event.engineDispatch "hi" AgentStatus.stopped
        ∈ (sendMessage c7Stopped "hi" (EngineOutcome.success "ok")).1.events
    ∧ Event.agentStatus AgentStatus.running
        ∈ (sendMessage c7Stopped "hi" (EngineOutcome.success "ok")).1.events := by
  set_option maxRecDepth 10000 in decide

/-- C9: evaluation of the code at the failing input. With the agent
status "running" (a turn was dispatched and its cancellation swallowed
mid-stream), a second `sendMessage` dispatches another engine turn at
once — the dispatch is recorded while the status is "running", showing
`sendMessage` enforces no mutual exclusion between turns of the same
agent. -/
theorem C9_code_bug_evaluation :
    statusOf c9Running = some AgentStatus.running
    ∧ Event.engineDispatch "second" AgentStatus.running
        ∈ (sendMessage c9Running "second" (EngineOutcome.success "ok")).1.events := by
  decide

/-- C1 (amended): `queueMessage` appends the new entry at the tail
without re-sorting, so the stored queue is in pure insertion order; the
priority-major/FIFO-minor ordering holds only after
`reorderQueueByPriority` (invoked on the high-priority steering path),
which stably moves all high-priority entries before all normal-priority
entries while preserving the relative insertion order inside each
priority band; `getQueueState` returns the stored queue as-is. -/
theorem C1_amended :
    (∀ (ra : RunningAgent) (n : Nat) (evs : List Event) (content : String) (p : Priority),
      queueOf (queueMessage ⟨some ra, n, evs⟩ content p).1
        = ra.messageQueue ++ [⟨n, content, n, p⟩])
    ∧ (∀ ra : RunningAgent,
        priorityMajorFifoMinor (reorderQueueByPriority ra).messageQueue
        ∧ (reorderQueueByPriority ra).messageQueue.filter
            (fun m => m.priority = Priority.high)
          = ra.messageQueue.filter (fun m => m.priority = Priority.high)
        ∧ (reorderQueueByPriority ra).messageQueue.filter
            (fun m => ¬(m.priority = Priority.high))
          = ra.messageQueue.filter (fun m => ¬(m.priority = Priority.high)))
    ∧ (∀ (ra : RunningAgent) (n : Nat) (evs : List Event),
        (getQueueState ⟨some ra, n, evs⟩).map MessageQueueState.messages
          = some ra.messageQueue) := by
  refine ⟨?_, ?_, ?_⟩
  · intro ra n evs content p
    simp [queueMessage, pushAgentMessage, queueOf]
  · intro ra
    refine ⟨?_, ?_, ?_⟩
    · simpa [reorderQueueByPriority] using
        priorityMajorFifoMinor_reordered ra.messageQueue
    · simp [reorderQueueByPriority, List.filter_append, filter_high_of_filter_high,
        filter_high_of_filter_not]
    · simp [reorderQueueByPriority, List.filter_append, filter_not_of_filter_high,
        filter_not_of_filter_not]
  · intro ra n evs
    simp [getQueueState]

/-- The immediate-mode branch of `sendSteerMessage` on a non-idle agent:
the interrupt flag is raised, the message is enqueued with high priority
(entry id `n + 1`, since the `[Steer]` system message consumes id `n`),
the queue is reordered by priority, and the call reports success. -/
theorem sendSteerMessage_immediate_spec (a : Agent) (mq : List QueuedMessage)
    (pq ir : Bool) (n : Nat) (evs : List Event) (msg : String) (o : EngineOutcome)
    (h : a.status ≠ AgentStatus.idle) :
    interruptOf (sendSteerMessage ⟨some ⟨a, mq, SteerMode.immediate, pq, ir⟩, n, evs⟩ msg o).1
      = some true
    ∧ queueOf (sendSteerMessage ⟨some ⟨a, mq, SteerMode.immediate, pq, ir⟩, n, evs⟩ msg o).1
      = (mq ++ [({ id := n + 1, content := msg, timestamp := n + 1, priority := Priority.high } : QueuedMessage)]).filter
          (fun m => m.priority = Priority.high)
        ++ (mq ++ [({ id := n + 1, content := msg, timestamp := n + 1, priority := Priority.high } : QueuedMessage)]).filter
          (fun m => ¬(m.priority = Priority.high))
    ∧ (sendSteerMessage ⟨some ⟨a, mq, SteerMode.immediate, pq, ir⟩, n, evs⟩ msg o).2 = true := by
  refine ⟨?_, ?_, ?_⟩ <;>
    simp [sendSteerMessage, queueMessage, pushAgentMessage, emitEv,
      setInterruptRequested, mapRA, reorderQueueByPriority, updateQueueStateMessages,
      interruptOf, queueOf, h]

/-- A high-priority entry placed at the tail is present in the reordered
queue. -/
theorem mem_reordered_of_high (mq : List QueuedMessage) (qm : QueuedMessage)
    (hq : qm.priority = Priority.high) :
    qm ∈ (mq ++ [qm]).filter (fun m => m.priority = Priority.high)
      ++ (mq ++ [qm]).filter (fun m => ¬(m.priority = Priority.high)) := by
  apply List.mem_append_left
  apply List.mem_filter.mpr
  refine ⟨List.mem_append_right mq (List.mem_cons_self qm []), ?_⟩
  simp [hq]

/-- C2 (amended): `sendSteerMessage` on a busy (non-idle) agent forces
interrupt-and-inject only when the steer mode is "immediate"; when the
steer mode is "queue" it merely enqueues the message with default
(normal) priority at the tail and leaves `interrupt_requested`
unchanged, while still reporting success. -/
theorem C2_amended :
    (∀ (a : Agent) (mq : List QueuedMessage) (pq ir : Bool) (n : Nat) (evs : List Event)
      (msg : String) (o : EngineOutcome),
      a.status ≠ AgentStatus.idle →
      queueOf (sendSteerMessage ⟨some ⟨a, mq, SteerMode.queue, pq, ir⟩, n, evs⟩ msg o).1
        = mq ++ [⟨n, msg, n, Priority.normal⟩]
      ∧ interruptOf (sendSteerMessage ⟨some ⟨a, mq, SteerMode.queue, pq, ir⟩, n, evs⟩ msg o).1
        = some ir
      ∧ (sendSteerMessage ⟨some ⟨a, mq, SteerMode.queue, pq, ir⟩, n, evs⟩ msg o).2 = true)
    ∧ (∀ (a : Agent) (mq : List QueuedMessage) (pq ir : Bool) (n : Nat) (evs : List Event)
      (msg : String) (o : EngineOutcome),
      a.status ≠ AgentStatus.idle →
      interruptOf (sendSteerMessage ⟨some ⟨a, mq, SteerMode.immediate, pq, ir⟩, n, evs⟩ msg o).1
        = some true
      ∧ ∃ m ∈ queueOf (sendSteerMessage ⟨some ⟨a, mq, SteerMode.immediate, pq, ir⟩, n, evs⟩
            msg o).1, m.content = msg ∧ m.priority = Priority.high) := by
  constructor
  · intro a mq pq ir n evs msg o h
    refine ⟨?_, ?_, ?_⟩ <;>
      simp [sendSteerMessage, queueMessage, pushAgentMessage, emitEv,
        updateQueueStateMessages, interruptOf, queueOf, h]
  · intro a mq pq ir n evs msg o h
    obtain ⟨h1, h2, _⟩ := sendSteerMessage_immediate_spec a mq pq ir n evs msg o h
    refine ⟨h1, ⟨⟨n + 1, msg, n + 1, Priority.high⟩, ?_, rfl, rfl⟩⟩
    rw [h2]
    exact mem_reordered_of_high mq ⟨n + 1, msg, n + 1, Priority.high⟩ rfl

/-- C2 witness: the amended statement instantiated on a concrete busy
agent in each steer mode. -/
theorem C2_amended_witness :
    (queueOf (sendSteerMessage
        ⟨some ⟨⟨AgentType.codex, AgentStatus.running, [], none⟩, [], SteerMode.queue,
          false, false⟩, 0, []⟩ "x" (EngineOutcome.success "r")).1
      = [⟨0, "x", 0, Priority.normal⟩])
    ∧ interruptOf (sendSteerMessage
        ⟨some ⟨⟨AgentType.codex, AgentStatus.running, [], none⟩, [], SteerMode.immediate,
          false, false⟩, 0, []⟩ "x" (EngineOutcome.success "r")).1 = some true := by
  constructor
  · exact (C2_amended.1 ⟨AgentType.codex, AgentStatus.running, [], none⟩ [] false false 0 []
      "x" (EngineOutcome.success "r") (by decide)).1
  · exact (C2_amended.2 ⟨AgentType.codex, AgentStatus.running, [], none⟩ [] false false 0 []
      "x" (EngineOutcome.success "r") (by decide)).1

/-- C4 (amended): `interruptAgent` indeed requires status "running" (on
any other status it is a pure no-op returning false), but
`sendSteerMessage` in immediate steer mode — reachable for any non-idle
status, including "error", "stopped" and "waiting_for_input" — sets
`interrupt_requested` to true without checking that the status is
"running". -/
theorem C4_amended :
    (∀ (ra : RunningAgent) (n : Nat) (evs : List Event),
      ra.agent.status ≠ AgentStatus.running →
      interruptAgent ⟨some ra, n, evs⟩ = (⟨some ra, n, evs⟩, false))
    ∧ (∀ (a : Agent) (mq : List QueuedMessage) (pq ir : Bool) (n : Nat) (evs : List Event)
      (msg : String) (o : EngineOutcome),
      a.status ≠ AgentStatus.idle →
      interruptOf (sendSteerMessage ⟨some ⟨a, mq, SteerMode.immediate, pq, ir⟩, n, evs⟩
        msg o).1 = some true) := by
  constructor
  · intro ra n evs h
    simp [interruptAgent, h]
  · intro a mq pq ir n evs msg o h
    exact (sendSteerMessage_immediate_spec a mq pq ir n evs msg o h).1

/-- C4 witness: the amended statement instantiated on a concrete agent
in status "stopped". -/
theorem C4_amended_witness :
    interruptAgent ⟨some ⟨⟨AgentType.codex, AgentStatus.stopped, [], none⟩, [],
        SteerMode.immediate, false, false⟩, 0, []⟩
      = (⟨some ⟨⟨AgentType.codex, AgentStatus.stopped, [], none⟩, [],
          SteerMode.immediate, false, false⟩, 0, []⟩, false)
    ∧ interruptOf (sendSteerMessage ⟨some ⟨⟨AgentType.codex, AgentStatus.stopped, [], none⟩,
        [], SteerMode.immediate, false, false⟩, 0, []⟩ "x" (EngineOutcome.success "r")).1
      = some true := by
  constructor
  · exact C4_amended.1 ⟨⟨AgentType.codex, AgentStatus.stopped, [], none⟩, [],
      SteerMode.immediate, false, false⟩ 0 [] (by decide)
  · exact C4_amended.2 ⟨AgentType.codex, AgentStatus.stopped, [], none⟩ [] false false 0 []
      "x" (EngineOutcome.success "r") (by decide)

/-- C5 (amended): when dispatching the head of the queue raises an
engine error, the exception propagates out of `processQueue`: the agent
transitions to "error", the remaining queued messages are left in the
queue (the loop does not continue to them), the only message appended to
the log is the user message of the failed dispatch (no system message
records the error), `processingQueue` is left true, and
`queue:processing_completed` is not among the emitted events. The full
resulting state is given explicitly (codex engine path, agent idle at
entry). -/
theorem C5_amended :
    ∀ (msgs : List AgentMessage) (qs : MessageQueueState) (sm : SteerMode)
      (m : QueuedMessage) (rest : List QueuedMessage) (n : Nat) (evs : List Event)
      (oracle : Nat → EngineOutcome × Bool),
      (oracle 0).1 = EngineOutcome.engineError →
      processQueue ⟨some ⟨⟨AgentType.codex, AgentStatus.idle, msgs, some qs⟩,
          m :: rest, sm, false, false⟩, n, evs⟩ oracle
        = (⟨some ⟨⟨AgentType.codex, AgentStatus.error,
              msgs ++ [⟨n, MessageType.user, m.content, n⟩],
              some ⟨rest, qs.steerMode, true, qs.selectedIndex⟩⟩,
            rest, sm, true, false⟩, n + 1,
            evs ++ [Event.processingStarted, Event.queueMessageRemoved m.id,
              Event.agentMessage ⟨n, MessageType.user, m.content, n⟩,
              Event.engineDispatch m.content AgentStatus.idle,
              Event.agentStatus AgentStatus.running,
              Event.agentStatus AgentStatus.error]⟩, true) := by
  intro msgs qs sm m rest n evs oracle h
  simp [processQueue, drainLoop, sendMessage, sendCodexMessage, setStatus,
    pushAgentMessage, emitEv, setProcessingQueue, updateQueueStateMessages, h]

/-- C5 witness: the amended statement instantiated on a concrete
two-message queue with an erroring engine. -/
theorem C5_amended_witness :
    processQueue ⟨some ⟨⟨AgentType.codex, AgentStatus.idle, [],
        some ⟨[⟨7, "a", 7, Priority.normal⟩, ⟨8, "b", 8, Priority.normal⟩],
          SteerMode.immediate, false, -1⟩⟩,
        [⟨7, "a", 7, Priority.normal⟩, ⟨8, "b", 8, Priority.normal⟩],
        SteerMode.immediate, false, false⟩, 9, []⟩
      (fun _ => (EngineOutcome.engineError, true))
      = (⟨some ⟨⟨AgentType.codex, AgentStatus.error,
            [⟨9, MessageType.user, "a", 9⟩],
            some ⟨[⟨8, "b", 8, Priority.normal⟩], SteerMode.immediate, true, -1⟩⟩,
          [⟨8, "b", 8, Priority.normal⟩], SteerMode.immediate, true, false⟩, 10,
          [Event.processingStarted, Event.queueMessageRemoved 7,
            Event.agentMessage ⟨9, MessageType.user, "a", 9⟩,
            Event.engineDispatch "a" AgentStatus.idle,
            Event.agentStatus AgentStatus.running,
            Event.agentStatus AgentStatus.error]⟩, true) := by
  exact C5_amended [] ⟨[⟨7, "a", 7, Priority.normal⟩, ⟨8, "b", 8, Priority.normal⟩],
    SteerMode.immediate, false, -1⟩ SteerMode.immediate ⟨7, "a", 7, Priority.normal⟩
    [⟨8, "b", 8, Priority.normal⟩] 9 [] (fun _ => (EngineOutcome.engineError, true)) rfl

/-- C6 (amended): `removeQueuedMessage` with a message id not present in
the queue is indeed a no-op on the state (the queue and everything else
are unchanged), but it returns false rather than success, and the
server's `remove_queued_message` handler therefore answers with the
error reply "Failed to remove queued message" instead of success. -/
theorem C6_amended :
    ∀ (ra : RunningAgent) (n : Nat) (evs : List Event) (messageId : Nat),
      (∀ m ∈ ra.messageQueue, ¬(m.id = messageId)) →
      removeQueuedMessage ⟨some ra, n, evs⟩ messageId = (⟨some ra, n, evs⟩, false)
      ∧ handleRemoveQueuedMessage ⟨some ra, n, evs⟩ messageId
        = (⟨some ra, n, evs⟩, ServerResponse.error "Failed to remove queued message") := by
  intro ra n evs messageId h
  have hfilter : ra.messageQueue.filter (fun m => !decide (m.id = messageId)) = ra.messageQueue := by
    apply List.filter_eq_self.mpr
    intro a ha
    simpa using h a ha
  have hrm : removeQueuedMessage ⟨some ra, n, evs⟩ messageId = (⟨some ra, n, evs⟩, false) := by
    simp only [removeQueuedMessage, decide_not, hfilter]
    rw [if_neg (Nat.lt_irrefl _)]
  exact ⟨hrm, by simp [handleRemoveQueuedMessage, hrm]⟩

/-- C6 witness: the amended statement instantiated on a concrete queue
holding only id 0, removing absent id 5. -/
theorem C6_amended_witness :
    handleRemoveQueuedMessage ⟨some ⟨⟨AgentType.codex, AgentStatus.idle, [],
        none⟩, [⟨0, "a", 0, Priority.normal⟩], SteerMode.immediate, false, false⟩, 1, []⟩ 5
      = (⟨some ⟨⟨AgentType.codex, AgentStatus.idle, [], none⟩,
          [⟨0, "a", 0, Priority.normal⟩], SteerMode.immediate, false, false⟩, 1, []⟩,
          ServerResponse.error "Failed to remove queued message") := by
  exact (C6_amended ⟨⟨AgentType.codex, AgentStatus.idle, [], none⟩,
    [⟨0, "a", 0, Priority.normal⟩], SteerMode.immediate, false, false⟩ 1 [] 5 (by decide)).2

/-- C8: for every existing agent with status "running" and steer mode
"immediate", handling a user message (`handleUserInput`, the
`send_message` routing entry point) results in `interrupt_requested`
being true and a high-priority queue entry containing that message. -/
theorem C8_immediate_steering :
    ∀ (aty : AgentType) (msgs : List AgentMessage) (oqs : Option MessageQueueState)
      (mq : List QueuedMessage) (pq ir : Bool) (n : Nat) (evs : List Event)
      (msg : String) (o : EngineOutcome) (bi : Bool) (oracle : Nat → EngineOutcome × Bool),
      interruptOf (handleUserInput ⟨some ⟨⟨aty, AgentStatus.running, msgs, oqs⟩, mq,
          SteerMode.immediate, pq, ir⟩, n, evs⟩ msg o bi oracle) = some true
      ∧ ∃ m ∈ queueOf (handleUserInput ⟨some ⟨⟨aty, AgentStatus.running, msgs, oqs⟩, mq,
          SteerMode.immediate, pq, ir⟩, n, evs⟩ msg o bi oracle),
          m.content = msg ∧ m.priority = Priority.high := by
  intro aty msgs oqs mq pq ir n evs msg o bi oracle
  have hni : (⟨aty, AgentStatus.running, msgs, oqs⟩ : Agent).status ≠ AgentStatus.idle := by
    simp
  obtain ⟨h1, h2, _⟩ := sendSteerMessage_immediate_spec ⟨aty, AgentStatus.running, msgs, oqs⟩
    mq pq ir n evs msg o hni
  have hroute : handleUserInput ⟨some ⟨⟨aty, AgentStatus.running, msgs, oqs⟩, mq,
      SteerMode.immediate, pq, ir⟩, n, evs⟩ msg o bi oracle
      = (sendSteerMessage ⟨some ⟨⟨aty, AgentStatus.running, msgs, oqs⟩, mq,
          SteerMode.immediate, pq, ir⟩, n, evs⟩ msg o).1 := by
    simp [handleUserInput]
  rw [hroute]
  refine ⟨h1, ⟨⟨n + 1, msg, n + 1, Priority.high⟩, ?_, rfl, rfl⟩⟩
  rw [h2]
  exact mem_reordered_of_high mq ⟨n + 1, msg, n + 1, Priority.high⟩ rfl

theorem queueMirroredB_emitEv (s : MState) (e : Event) :
    queueMirroredB (emitEv s e) = queueMirroredB s := by
  rcases s with ⟨ora, n, evs⟩
  cases ora <;> rfl

theorem queueMirroredB_pushAgentMessage (s : MState) (mt : MessageType) (c : String) :
    queueMirroredB (pushAgentMessage s mt c) = queueMirroredB s := by
  rcases s with ⟨ora, n, evs⟩
  cases ora <;> rfl

theorem queueMirroredB_setStatus (s : MState) (st : AgentStatus) :
    queueMirroredB (setStatus s st) = queueMirroredB s := by
  rcases s with ⟨ora, n, evs⟩
  cases ora <;> rfl

theorem queueMirroredB_setProcessingQueue (s : MState) (b : Bool) :
    queueMirroredB (setProcessingQueue s b) = queueMirroredB s := by
  rcases s with ⟨ora, n, evs⟩
  cases ora with
  | none => rfl
  | some ra =>
    rcases ra with ⟨⟨aty, st, msgs, oqs⟩, mq, sm, pq, ir⟩
    cases oqs <;> rfl

theorem queueMirroredB_waitForAgentIdle (s : MState) (b : Bool) :
    queueMirroredB (waitForAgentIdle s b) = queueMirroredB s := by
  rcases s with ⟨ora, n, evs⟩
  cases ora with
  | none => rfl
  | some ra =>
    simp only [waitForAgentIdle]
    split
    · split
      · rw [queueMirroredB_setStatus]
      · rfl
    · rfl

theorem queueMirroredB_sendClaudeCodeMessage (s : MState) (m : String) (o : EngineOutcome) :
    queueMirroredB (sendClaudeCodeMessage s m o).1 = queueMirroredB s := by
  rcases s with ⟨ora, n, evs⟩
  cases ora with
  | none => rfl
  | some ra =>
    cases o <;>
      simp [sendClaudeCodeMessage, queueMirroredB_setStatus, queueMirroredB_pushAgentMessage,
        queueMirroredB_emitEv]

theorem queueMirroredB_sendCodexMessage (s : MState) (m : String) (o : EngineOutcome) :
    queueMirroredB (sendCodexMessage s m o).1 = queueMirroredB s := by
  rcases s with ⟨ora, n, evs⟩
  cases ora with
  | none => rfl
  | some ra =>
    cases o <;>
      simp [sendCodexMessage, queueMirroredB_setStatus, queueMirroredB_pushAgentMessage,
        queueMirroredB_emitEv]

theorem queueMirroredB_sendMessage (s : MState) (m : String) (o : EngineOutcome) :
    queueMirroredB (sendMessage s m o).1 = queueMirroredB s := by
  rcases s with ⟨ora, n, evs⟩
  cases ora with
  | none => rfl
  | some ra =>
    cases hty : ra.agent.agent_type <;>
      simp [sendMessage, hty, queueMirroredB_sendClaudeCodeMessage,
        queueMirroredB_sendCodexMessage, queueMirroredB_pushAgentMessage]

theorem queueMirroredB_drainLoop (oracle : Nat → EngineOutcome × Bool) :
    ∀ (fuel k : Nat) (s : MState),
      queueMirroredB s = true → queueMirroredB (drainLoop oracle fuel k s).1 = true := by
  intro fuel
  induction fuel with
  | zero => intro k s h; exact h
  | succ fuel ih =>
    intro k s h
    rcases s with ⟨ora, n, evs⟩
    cases ora with
    | none => exact h
    | some ra =>
      rcases ra with ⟨⟨aty, st, msgs, oqs⟩, mq, sm, pq, ir⟩
      cases mq with
      | nil => exact h
      | cons m rest =>
        cases ir with
        | true => exact h
        | false =>
          simp only [drainLoop]
          split
          · rw [queueMirroredB_sendMessage]
            cases oqs <;> simp [queueMirroredB, updateQueueStateMessages]
          · apply ih
            rw [queueMirroredB_waitForAgentIdle, queueMirroredB_sendMessage]
            cases oqs <;> simp [queueMirroredB, updateQueueStateMessages]

theorem queueMirroredB_processQueue (s : MState) (oracle : Nat → EngineOutcome × Bool)
    (h : queueMirroredB s = true) :
    queueMirroredB (processQueue s oracle).1 = true := by
  rcases s with ⟨ora, n, evs⟩
  cases ora with
  | none => exact h
  | some ra =>
    simp only [processQueue]
    split
    · exact h
    · split
      · exact h
      · have h2 : queueMirroredB
            (emitEv (setProcessingQueue ⟨some ra, n, evs⟩ true) Event.processingStarted)
            = true := by
          rw [queueMirroredB_emitEv, queueMirroredB_setProcessingQueue]
          exact h
        have h3 := queueMirroredB_drainLoop oracle ra.messageQueue.length 0 _ h2
        split
        · exact h3
        · rw [queueMirroredB_emitEv, queueMirroredB_setProcessingQueue]
          exact h3

/-- C10: the UI-visible queue snapshot never diverges from the real
queue. The mirror invariant `agent.queue_state.messages =
runningAgent.messageQueue` holds of a freshly started agent and is
preserved (or outright established) by every queue-mutating operation:
`queueMessage`, `removeQueuedMessage`, `clearQueue`,
`reorderQueueByPriority`, and `processQueue` together with every drain
iteration inside it. -/
theorem C10_queue_mirror :
    (∀ t : AgentType, queueMirroredB (startedState t) = true)
    ∧ (∀ (s : MState) (c : String) (p : Priority),
        queueMirroredB (queueMessage s c p).1 = true)
    ∧ (∀ (s : MState) (mid : Nat),
        queueMirroredB s = true → queueMirroredB (removeQueuedMessage s mid).1 = true)
    ∧ (∀ s : MState, queueMirroredB (clearQueue s).1 = true)
    ∧ (∀ s : MState, queueMirroredB (mapRA s reorderQueueByPriority) = true)
    ∧ (∀ (s : MState) (oracle : Nat → EngineOutcome × Bool),
        queueMirroredB s = true → queueMirroredB (processQueue s oracle).1 = true) := by
  refine ⟨fun t => rfl, ?_, ?_, ?_, ?_, fun s oracle h => queueMirroredB_processQueue s oracle h⟩
  · intro s c p
    rcases s with ⟨ora, n, evs⟩
    cases ora with
    | none => rfl
    | some ra =>
      rcases ra with ⟨⟨aty, st, msgs, oqs⟩, mq, sm, pq, ir⟩
      cases oqs <;>
        simp [queueMessage, pushAgentMessage, updateQueueStateMessages, queueMirroredB]
  · intro s mid h
    rcases s with ⟨ora, n, evs⟩
    cases ora with
    | none => exact h
    | some ra =>
      rcases ra with ⟨⟨aty, st, msgs, oqs⟩, mq, sm, pq, ir⟩
      simp only [removeQueuedMessage]
      split
      · rw [queueMirroredB_emitEv]
        cases oqs <;> simp [queueMirroredB, updateQueueStateMessages]
      · rename_i hlen
        have hflt : mq.filter (fun m => ¬(m.id = mid)) = mq := by
          apply List.filter_eq_self.mpr
          apply List.filter_length_eq_length.mp
          exact le_antisymm (List.length_filter_le _ mq) (Nat.not_lt.mp hlen)
        rw [hflt]
        exact h
  · intro s
    rcases s with ⟨ora, n, evs⟩
    cases ora with
    | none => rfl
    | some ra =>
      rcases ra with ⟨⟨aty, st, msgs, oqs⟩, mq, sm, pq, ir⟩
      rw [clearQueue]
      rw [queueMirroredB_pushAgentMessage, queueMirroredB_emitEv]
      cases oqs <;> simp [queueMirroredB]
  · intro s
    rcases s with ⟨ora, n, evs⟩
    cases ora with
    | none => rfl
    | some ra =>
      rcases ra with ⟨⟨aty, st, msgs, oqs⟩, mq, sm, pq, ir⟩
      cases oqs <;>
        simp [mapRA, reorderQueueByPriority, updateQueueStateMessages, queueMirroredB]

/-- C10 witness: the invariant components applied to a concrete freshly
started agent. -/
theorem C10_queue_mirror_witness :
    queueMirroredB (removeQueuedMessage (startedState AgentType.codex) 5).1 = true
    ∧ queueMirroredB (processQueue (startedState AgentType.codex)
        (fun _ => (EngineOutcome.success "r", true))).1 = true := by
  constructor
  · exact C10_queue_mirror.2.2.1 (startedState AgentType.codex) 5 (by decide)
  · exact C10_queue_mirror.2.2.2.2.2 (startedState AgentType.codex)
      (fun _ => (EngineOutcome.success "r", true)) (by decide)

end Orkis
